import Mathlib

/-
Verification of the request/response normalization layer of
cfware/tap-context-got.

The repository holds two near-duplicate variants of one class,
`TAPContextGot`:
  * src/unnamed/part_000 — the full variant (`_withBody`, `put`, `delete`,
    ten registered assertions);
  * src/index.js — the reduced variant (inline `post`, five registered
    assertions).
The normalization algorithm (option merging, cache deletion, deferred-body
resolution, multipart/JSON classification) is identical in both; it is
embedded once below.  The external collaborators (the `got` transport,
`JSON.parse`, the multipart encoder, the cookie jar, the tap framework)
are modelled at their interface boundary, as the code only consumes them.
-/

/-- JavaScript values that can appear in request options and JSON
documents (no functions; deferred bodies are handled separately). -/
inductive JSValue where
  | undefined
  | null
  | bool (b : Bool)
  | num (n : Int)
  | str (s : String)
  | arr (items : List JSValue)
  | obj (fields : List (String × JSValue))

/-- JavaScript truthiness of a value, as used by `if (!cache)`. -/
def JSValue.truthy : JSValue → Bool
  | JSValue.undefined => false
  | JSValue.null => false
  | JSValue.bool b => b
  | JSValue.num n => decide (n ≠ 0)
  | JSValue.str s => decide (s ≠ "")
  | JSValue.arr _ => true
  | JSValue.obj _ => true

/-- Truthiness of a possibly-absent value (an absent key reads as
`undefined`, which is falsy). -/
def jsTruthyOpt : Option JSValue → Bool
  | none => false
  | some v => v.truthy

/-- JSON string escaping for one character (quote and backslash; enough
for the string literals this development evaluates). -/
def jsQuoteChar (c : Char) : String :=
  if c = '"' then "\\\"" else if c = '\\' then "\\\\" else String.singleton c

/-- JSON quoting of a string. -/
def jsQuote (s : String) : String :=
  "\"" ++ String.join (s.toList.map jsQuoteChar) ++ "\""

mutual

/-- Model of `JSON.stringify` on a JS value: `none` models the JS result
`undefined` (stringifying `undefined` or a function). -/
def jstr : JSValue → Option String
  | JSValue.undefined => none
  | JSValue.null => some "null"
  | JSValue.bool true => some "true"
  | JSValue.bool false => some "false"
  | JSValue.num n => some (toString n)
  | JSValue.str s => some (jsQuote s)
  | JSValue.arr items => some ("[" ++ String.intercalate "," (jstrItems items) ++ "]")
  | JSValue.obj fields => some ("\x7b" ++ String.intercalate "," (jstrFields fields) ++ "\x7d")

/-- Array elements under `JSON.stringify`: an undefined element renders
as `null`. -/
def jstrItems : List JSValue → List String
  | [] => []
  | x :: xs =>
    (match jstr x with
     | some s => s
     | none => "null") :: jstrItems xs

/-- Object fields under `JSON.stringify`: a field whose value stringifies
to undefined is skipped. -/
def jstrFields : List (String × JSValue) → List String
  | [] => []
  | (k, v) :: fs =>
    match jstr v with
    | none => jstrFields fs
    | some s => (jsQuote k ++ ":" ++ s) :: jstrFields fs

end

/-- Node `Buffer.prototype.toJSON` composed with stringify, for the
(unreached in practice) case of stringifying a byte buffer. -/
def bufferToJSON (bytes : List Nat) : String :=
  "\x7b\"type\":\"Buffer\",\"data\":[" ++ String.intercalate "," (bytes.map toString) ++ "]\x7d"

/-- Header maps.  Lookup is first-occurrence-wins, so the JS spread
`\x7b...loser, ...winner\x7d` is embedded as the list `winner ++ loser`. -/
abbrev Headers := List (String × String)

/-- Header lookup: first matching key wins. -/
def hLookup : Headers → String → Option String
  | [], _ => none
  | (k, v) :: rest, key => if k = key then some v else hLookup rest key

/-- First defined of two optional values (JS `a` present, else `b`). -/
def firstSome (a b : Option String) : Option String :=
  match a with
  | some x => some x
  | none => b

/-- The multipart capability (`multi-part`'s `Multipart`): an awaitable
byte buffer and `getHeaders(includeChunkedHeader)`. -/
structure MultipartHandle where
  buffer : List Nat
  getHeaders : Bool → Headers

/-- A request body before classification: a literal JS value, a deferred
zero-argument producer, a multipart-payload handle, or a raw byte
buffer. -/
inductive BodyVal where
  | plain (v : JSValue)
  | fn (f : Unit → BodyVal)
  | multipart (data : MultipartHandle)
  | bytes (buf : List Nat)

/-- The transport response, `\x7bstatus, body\x7d` on 2xx. -/
structure Response where
  status : Nat
  body : String

/-- Errors surfaced to callers: got's HTTPError for non-2xx (message
embeds the status code), JSON.parse's SyntaxError, or any other
failure. -/
inductive JsError where
  | http (status : Nat) (message : String)
  | parse (message : String)
  | other (message : String)

/-- The message text of an error. -/
def JsError.message : JsError → String
  | JsError.http _ m => m
  | JsError.parse m => m
  | JsError.other m => m

/-- The cache reference held in final transport options: the shared
default Map from `genericGotOptions`, or a caller-supplied value. -/
inductive CacheRef where
  | sharedDefault
  | supplied (v : JSValue)

/-- Caller-facing request options (the recognized keys of the options
object; `none` models an absent key). -/
structure ReqOptions where
  method : Option String
  headers : Option Headers
  body : Option BodyVal
  cache : Option JSValue
  json : Option JSValue
  timeout : Option Nat

/-- An empty options object (also the result of spreading `undefined`). -/
def emptyOptions : ReqOptions :=
  { method := none, headers := none, body := none, cache := none,
    json := none, timeout := none }

/-- Final options handed to the `got` transport after merging and body
classification. -/
structure GotOptions where
  method : Option String
  headers : Option Headers
  body : Option BodyVal
  cache : Option CacheRef
  json : Option JSValue
  timeout : Option Nat
  cookieJar : Bool

/-- The shared instance defaults: `\x7bcache: new Map(), timeout: 10000,
cookieJar: new CookieJar()\x7d`. -/
def genericGotOptions : GotOptions :=
  { method := none, headers := none, body := none,
    cache := some CacheRef.sharedDefault, json := none,
    timeout := some 10000, cookieJar := true }

/-- Options built by `api`: the spread `\x7b...genericGotOptions,
...options\x7d` (caller keys win; the defaults contribute cache, timeout
and cookie jar). -/
def apiOptions (options : ReqOptions) : GotOptions :=
  { method := options.method
    headers := options.headers
    body := options.body
    cache :=
      match options.cache with
      | some v => some (CacheRef.supplied v)
      | none => genericGotOptions.cache
    json := options.json
    timeout :=
      match options.timeout with
      | some t => some t
      | none => genericGotOptions.timeout
    cookieJar := genericGotOptions.cookieJar }

/-- Steps 1–2 of `_withBody`: spread `\x7bheaders: \x7b\x7d,
...genericGotOptions, ...options, method\x7d`, then `if (!cache) delete
options.cache` using the cache value read off the caller's options before
the merge.  The deletion is folded into the cache field: the merged cache
key survives only when the caller's own cache value was truthy. -/
def mergedOptions (method : String) (options : ReqOptions) : GotOptions :=
  { method := some method
    headers := some (options.headers.getD [])
    body := options.body
    cache :=
      if jsTruthyOpt options.cache then
        match options.cache with
        | some v => some (CacheRef.supplied v)
        | none => genericGotOptions.cache
      else none
    json := options.json
    timeout :=
      match options.timeout with
      | some t => some t
      | none => genericGotOptions.timeout
    cookieJar := genericGotOptions.cookieJar }

/-- Step 3 of `_withBody`: `if (typeof options.body === 'function')
options.body = options.body()` — a deferred body is invoked (once) and
replaced by its return value. -/
def resolveBody : Option BodyVal → Option BodyVal
  | some (BodyVal.fn f) => some (f ())
  | b => b

/-- How many times the resolution step invokes the deferred producer:
once when the body is a function, never otherwise. -/
def resolveCalls : Option BodyVal → Nat
  | some (BodyVal.fn _) => 1
  | _ => 0

/-- `JSON.stringify(options.body)` on a resolved body value (a function
never reaches here resolved, but JS would stringify it to undefined; a
multipart handle is guarded off by the branch above this call). -/
def stringifyBodyVal : BodyVal → Option String
  | BodyVal.plain v => jstr v
  | BodyVal.fn _ => none
  | BodyVal.multipart _ => some "\x7b\x7d"
  | BodyVal.bytes buf => some (bufferToJSON buf)

/-- The assignment `options.body = JSON.stringify(options.body)`: an
undefined stringify result leaves no body to send. -/
def stringifyBodyOpt : Option BodyVal → Option BodyVal
  | none => none
  | some b =>
    match stringifyBodyVal b with
    | some s => some (BodyVal.plain (JSValue.str s))
    | none => none

/-- Step 4 of `_withBody`: classify the resolved body.  A multipart
handle becomes its byte buffer with the capability's headers (chunked
header excluded) merged under the caller's headers; otherwise, when
`options.json !== false`, the body is JSON-encoded and
`Content-Type: application/json` is merged under the caller's headers;
when `options.json === false` nothing is touched. -/
def classifyBody (options : GotOptions) : GotOptions :=
  match options.body with
  | some (BodyVal.multipart data) =>
    { options with
      body := some (BodyVal.bytes data.buffer)
      headers := some ((options.headers.getD []) ++ data.getHeaders false) }
  | other =>
    match options.json with
    | some (JSValue.bool false) => options
    | _ =>
      { options with
        body := stringifyBodyOpt other
        headers := some ((options.headers.getD []) ++ [("Content-Type", "application/json")]) }

/-- The full option pipeline of `_withBody` (src/unnamed/part_000 lines
68–98; identical inline in src/index.js `post`): merge and cache-delete,
resolve a deferred body, classify. -/
def withBodyOptions (method : String) (options : ReqOptions) : GotOptions :=
  let merged := mergedOptions method options
  classifyBody { merged with body := resolveBody merged.body }

/-- The instance under test: `baseURL` plus which of the optional
lifecycle hooks (`start`, `stop`, `checkStopped`) it provides. -/
structure IntegrationInstance where
  baseURL : String
  hasStart : Bool
  hasStop : Bool
  hasCheckStopped : Bool
deriving DecidableEq

/-- The shared test context (`new TAPContextGot(integrationInstance)`). -/
structure TAPContextGot where
  integrationInstance : IntegrationInstance
deriving DecidableEq

/-- The `baseURL` getter delegates to the instance under test. -/
def TAPContextGot.baseURL (c : TAPContextGot) : String :=
  c.integrationInstance.baseURL

/-- The got transport capability: one HTTP request from a URL and final
options to a 2xx response or a thrown error. -/
abbrev Transport := String → GotOptions → Except JsError Response

/-- The `JSON.parse` builtin: a string to a JS value or a thrown
SyntaxError. -/
abbrev ParseFn := String → Except JsError JSValue

/-- `api(api, options)`: `got(baseURL + api, \x7b...genericGotOptions,
...options\x7d)`. -/
def TAPContextGot.api (t : Transport) (c : TAPContextGot) (api : String)
    (options : ReqOptions) : Except JsError Response :=
  t (c.baseURL ++ api) (apiOptions options)

/-- `json(api, options)`: await `api`, then `JSON.parse(body)`. -/
def TAPContextGot.json (t : Transport) (parseJSON : ParseFn) (c : TAPContextGot)
    (api : String) (options : ReqOptions) : Except JsError JSValue :=
  (TAPContextGot.api t c api options).bind (fun r => parseJSON r.body)

/-- `_withBody(method, api, options)`: run the option pipeline, issue the
request, `JSON.parse` the response body. -/
def TAPContextGot.withBody (t : Transport) (parseJSON : ParseFn) (c : TAPContextGot)
    (method : String) (api : String) (options : ReqOptions) : Except JsError JSValue :=
  (t (c.baseURL ++ api) (withBodyOptions method options)).bind (fun r => parseJSON r.body)

/-- `post(api, options)`: `_withBody('POST', api, options)`. -/
def TAPContextGot.post (t : Transport) (parseJSON : ParseFn) (c : TAPContextGot)
    (api : String) (options : ReqOptions) : Except JsError JSValue :=
  TAPContextGot.withBody t parseJSON c "POST" api options

/-- `put(api, options)`: `_withBody('PUT', api, options)`. -/
def TAPContextGot.put (t : Transport) (parseJSON : ParseFn) (c : TAPContextGot)
    (api : String) (options : ReqOptions) : Except JsError JSValue :=
  TAPContextGot.withBody t parseJSON c "PUT" api options

/-- `delete(api, options)`: `api(api, \x7b...options, method:
'DELETE'\x7d)` then `JSON.parse(body)` — no body handling at all. -/
def TAPContextGot.delete (t : Transport) (parseJSON : ParseFn) (c : TAPContextGot)
    (api : String) (options : ReqOptions) : Except JsError JSValue :=
  (TAPContextGot.api t c api { options with method := some "DELETE" }).bind
    (fun r => parseJSON r.body)

/-- The `httpError` classification field: status code to the literal text
of the registered pattern (`/Response code NNN/u`). -/
def httpError : Nat → Option String
  | 400 => some "Response code 400"
  | 404 => some "Response code 404"
  | 405 => some "Response code 405"
  | _ => none

/-- JS `a || b` on an optional string (an omitted or empty message falls
back to the default). -/
def jsOrString (a : Option String) (b : String) : String :=
  match a with
  | some s => if s = "" then b else s
  | none => b

/-- Whether `pat` occurs at the start of `cs`. -/
def leadsList : List Char → List Char → Bool
  | [], _ => true
  | _ :: _, [] => false
  | p :: ps, c :: cs => p = c && leadsList ps cs

/-- Whether `pat` occurs anywhere inside `cs`. -/
def containsList (pat : List Char) : List Char → Bool
  | [] => pat.isEmpty
  | c :: cs => leadsList pat (c :: cs) || containsList pat cs

/-- Whether a pattern (the literal text of one of the classification
regexes) matches a message: substring containment. -/
def reMatches (pattern s : String) : Bool :=
  containsList pattern.toList s.toList

/-- One call into the test framework's reporting primitives, as issued by
an assertion closure: `strictSame`, `match` (named `matchCall` here),
`error`, or `rejects` with the awaited outcome and expected pattern. -/
inductive TapCall where
  | strictSame (found expected : JSValue) (message : String) (extra : Option JSValue)
  | matchCall (found expected : JSValue) (message : String) (extra : Option JSValue)
  | errorCall (err : JsError) (message : String) (extra : Option JSValue)
  | rejects (outcome : Except JsError JSValue) (pattern : Option String)
      (message : String) (extra : Option JSValue)

/-- The message argument handed to the framework by a reporting call. -/
def TapCall.message : TapCall → String
  | TapCall.strictSame _ _ m _ => m
  | TapCall.matchCall _ _ m _ => m
  | TapCall.errorCall _ m _ => m
  | TapCall.rejects _ _ m _ => m

/-- The extra-metadata argument handed to the framework by a reporting
call. -/
def TapCall.extra : TapCall → Option JSValue
  | TapCall.strictSame _ _ _ e => e
  | TapCall.matchCall _ _ _ e => e
  | TapCall.errorCall _ _ e => e
  | TapCall.rejects _ _ _ e => e

/-- Modelled from the spec (§4.2, §6 test framework capability, not in
src/): tap's `t.rejects(promise, pattern, ...)` passes exactly when the
awaited promise rejects and, when a pattern was given, the rejection's
message matches it. -/
def rejectsPasses (outcome : Except JsError JSValue) (pattern : Option String) : Bool :=
  match outcome, pattern with
  | Except.error e, some pat => reMatches pat e.message
  | Except.error _, none => true
  | Except.ok _, _ => false


/-
Assertion closures registered by `setup` in src/unnamed/part_000
(lines 125–209).  Each runner returns the single reporting call the
closure makes, given the transport and parser capabilities.
-/

/-- `apiRejects(api, options, error, message, extra)`: `options = options
|| \x7b\x7d`, then `rejects(json(api, options), httpError[error], message
|| `METHOD api`, extra)` with the method defaulting to GET. -/
def TAPContextGot.apiRejects (t : Transport) (parseJSON : ParseFn) (c : TAPContextGot)
    (api : String) (options : Option ReqOptions) (error : Nat)
    (message : Option String) (extra : Option JSValue) : TapCall :=
  let options := options.getD emptyOptions
  TapCall.rejects (TAPContextGot.json t parseJSON c api options) (httpError error)
    (jsOrString message ((options.method.getD "GET") ++ " " ++ api)) extra

/-- `checkGet(api, expected, message, extra)`: `strictSame(await
json(api), expected, ...)`, with a rejection reported through
`error(...)`. -/
def TAPContextGot.checkGet (t : Transport) (parseJSON : ParseFn) (c : TAPContextGot)
    (api : String) (expected : JSValue) (message : Option String)
    (extra : Option JSValue) : TapCall :=
  let message := jsOrString message ("GET " ++ api)
  match TAPContextGot.json t parseJSON c api emptyOptions with
  | Except.ok found => TapCall.strictSame found expected message extra
  | Except.error e => TapCall.errorCall e message extra

/-- `matchGet(api, expected, message, extra)`: `match(await json(api),
expected, ...)`, with a rejection reported through `error(...)`. -/
def TAPContextGot.matchGet (t : Transport) (parseJSON : ParseFn) (c : TAPContextGot)
    (api : String) (expected : JSValue) (message : Option String)
    (extra : Option JSValue) : TapCall :=
  let message := jsOrString message ("GET " ++ api)
  match TAPContextGot.json t parseJSON c api emptyOptions with
  | Except.ok found => TapCall.matchCall found expected message extra
  | Except.error e => TapCall.errorCall e message extra

/-- `checkGetError(api, error, message, extra)`: `rejects(json(api),
httpError[error], message || `GET api`, extra)`. -/
def TAPContextGot.checkGetError (t : Transport) (parseJSON : ParseFn) (c : TAPContextGot)
    (api : String) (error : Nat) (message : Option String)
    (extra : Option JSValue) : TapCall :=
  TapCall.rejects (TAPContextGot.json t parseJSON c api emptyOptions) (httpError error)
    (jsOrString message ("GET " ++ api)) extra

/-- `checkPost(api, body, expected, message, extra)`: `strictSame(await
post(api, \x7bbody\x7d), expected, ...)`. -/
def TAPContextGot.checkPost (t : Transport) (parseJSON : ParseFn) (c : TAPContextGot)
    (api : String) (body : BodyVal) (expected : JSValue) (message : Option String)
    (extra : Option JSValue) : TapCall :=
  let message := jsOrString message ("POST " ++ api)
  match TAPContextGot.post t parseJSON c api { emptyOptions with body := some body } with
  | Except.ok found => TapCall.strictSame found expected message extra
  | Except.error e => TapCall.errorCall e message extra

/-- `checkPostError(api, body, error, message, extra)`: `rejects(post(api,
\x7bbody\x7d), httpError[error], message || `POST api`, extra)`. -/
def TAPContextGot.checkPostError (t : Transport) (parseJSON : ParseFn) (c : TAPContextGot)
    (api : String) (body : BodyVal) (error : Nat) (message : Option String)
    (extra : Option JSValue) : TapCall :=
  TapCall.rejects (TAPContextGot.post t parseJSON c api { emptyOptions with body := some body })
    (httpError error) (jsOrString message ("POST " ++ api)) extra

/-- `checkPut(api, body, expected, message, extra)`: `strictSame(await
put(api, \x7bbody\x7d), expected, ...)`. -/
def TAPContextGot.checkPut (t : Transport) (parseJSON : ParseFn) (c : TAPContextGot)
    (api : String) (body : BodyVal) (expected : JSValue) (message : Option String)
    (extra : Option JSValue) : TapCall :=
  let message := jsOrString message ("PUT " ++ api)
  match TAPContextGot.put t parseJSON c api { emptyOptions with body := some body } with
  | Except.ok found => TapCall.strictSame found expected message extra
  | Except.error e => TapCall.errorCall e message extra

/-- `checkPutError(api, body, error, message, extra)`: `rejects(put(api,
\x7bbody\x7d), httpError[error], message || `PUT api`, extra)`. -/
def TAPContextGot.checkPutError (t : Transport) (parseJSON : ParseFn) (c : TAPContextGot)
    (api : String) (body : BodyVal) (error : Nat) (message : Option String)
    (extra : Option JSValue) : TapCall :=
  TapCall.rejects (TAPContextGot.put t parseJSON c api { emptyOptions with body := some body })
    (httpError error) (jsOrString message ("PUT " ++ api)) extra

/-- `checkDelete(api, expected, message, extra)`: `strictSame(await
delete(api), expected, ...)`. -/
def TAPContextGot.checkDelete (t : Transport) (parseJSON : ParseFn) (c : TAPContextGot)
    (api : String) (expected : JSValue) (message : Option String)
    (extra : Option JSValue) : TapCall :=
  let message := jsOrString message ("DELETE " ++ api)
  match TAPContextGot.delete t parseJSON c api emptyOptions with
  | Except.ok found => TapCall.strictSame found expected message extra
  | Except.error e => TapCall.errorCall e message extra

/-- `checkDeleteError(api, error, message, extra)`: `rejects(delete(api),
httpError[error], message || `DELETE api`, extra)`. -/
def TAPContextGot.checkDeleteError (t : Transport) (parseJSON : ParseFn) (c : TAPContextGot)
    (api : String) (error : Nat) (message : Option String)
    (extra : Option JSValue) : TapCall :=
  TapCall.rejects (TAPContextGot.delete t parseJSON c api emptyOptions) (httpError error)
    (jsOrString message ("DELETE " ++ api)) extra

/-
Assertion closures registered by `setup` in src/index.js (lines 88–125).
`post` there inlines the same pipeline as `_withBody` with the method
forced to POST by `got.post`, so the shared operations are reused; the
closures differ from the part_000 variant only in their default
messages: the success assertions default to the bare `api` path.
-/

namespace IndexJs

/-- index.js `checkGet`: reports with `message || api` (no method
prefixed to the default). -/
def checkGet (t : Transport) (parseJSON : ParseFn) (c : TAPContextGot)
    (api : String) (expected : JSValue) (message : Option String)
    (extra : Option JSValue) : TapCall :=
  match TAPContextGot.json t parseJSON c api emptyOptions with
  | Except.ok found => TapCall.strictSame found expected (jsOrString message api) extra
  | Except.error e => TapCall.errorCall e (jsOrString message api) extra

/-- index.js `matchGet`: reports with `message || api`. -/
def matchGet (t : Transport) (parseJSON : ParseFn) (c : TAPContextGot)
    (api : String) (expected : JSValue) (message : Option String)
    (extra : Option JSValue) : TapCall :=
  match TAPContextGot.json t parseJSON c api emptyOptions with
  | Except.ok found => TapCall.matchCall found expected (jsOrString message api) extra
  | Except.error e => TapCall.errorCall e (jsOrString message api) extra

/-- index.js `checkGetError`: reports with `message || `GET api``. -/
def checkGetError (t : Transport) (parseJSON : ParseFn) (c : TAPContextGot)
    (api : String) (error : Nat) (message : Option String)
    (extra : Option JSValue) : TapCall :=
  TapCall.rejects (TAPContextGot.json t parseJSON c api emptyOptions) (httpError error)
    (jsOrString message ("GET " ++ api)) extra

/-- index.js `checkPost`: reports with `message || api`. -/
def checkPost (t : Transport) (parseJSON : ParseFn) (c : TAPContextGot)
    (api : String) (body : BodyVal) (expected : JSValue) (message : Option String)
    (extra : Option JSValue) : TapCall :=
  match TAPContextGot.post t parseJSON c api { emptyOptions with body := some body } with
  | Except.ok found => TapCall.strictSame found expected (jsOrString message api) extra
  | Except.error e => TapCall.errorCall e (jsOrString message api) extra

/-- index.js `checkPostError`: reports with `message || `POST api``. -/
def checkPostError (t : Transport) (parseJSON : ParseFn) (c : TAPContextGot)
    (api : String) (body : BodyVal) (error : Nat) (message : Option String)
    (extra : Option JSValue) : TapCall :=
  TapCall.rejects (TAPContextGot.post t parseJSON c api { emptyOptions with body := some body })
    (httpError error) (jsOrString message ("POST " ++ api)) extra

end IndexJs

/-
Lifecycle model of `setup`'s `tap.test('setup integration testing', ...)`
block (identical in both variants): the shared context is constructed
once, the optional `start` hook runs, a `beforeEach` hook attaches the
one context to every test case, and the registered teardown awaits the
optional `stop` hook and then the optional `checkStopped` hook.
-/

/-- Observable lifecycle events of one test run. -/
inductive LifecycleEvent where
  | contextCreated
  | startCalled
  | testRun
  | stopCalled
  | checkStoppedCalled
deriving DecidableEq, BEq

/-- Events of the setup test body: the context construction followed by
`await integrationInstance.start?.()` (a no-op when absent). -/
def setupTestTrace (ii : IntegrationInstance) : List LifecycleEvent :=
  [LifecycleEvent.contextCreated] ++
    (if ii.hasStart then [LifecycleEvent.startCalled] else [])

/-- Events of the registered teardown: `await stop?.()` then `await
checkStopped?.()`, each a no-op when the hook is absent. -/
def teardownTrace (ii : IntegrationInstance) : List LifecycleEvent :=
  (if ii.hasStop then [LifecycleEvent.stopCalled] else []) ++
    (if ii.hasCheckStopped then [LifecycleEvent.checkStoppedCalled] else [])

/-- A test case's mutable slot: `t.context`. -/
structure TestCase where
  context : Option TAPContextGot
deriving DecidableEq

/-- The registered `beforeEach` hook: `t.context = context` for the one
shared context. -/
def beforeEachHook (context : TAPContextGot) (t : TestCase) : TestCase :=
  { t with context := some context }

/-- One whole run: the setup test constructs the single shared context,
every test case passes through the `beforeEach` hook, and the teardown
runs after the last test.  Returns the event trace and the test cases as
the hook leaves them. -/
def setupRun (ii : IntegrationInstance) (tests : List TestCase) :
    List LifecycleEvent × List TestCase :=
  let context : TAPContextGot := { integrationInstance := ii }
  (setupTestTrace ii ++ List.replicate tests.length LifecycleEvent.testRun ++
     teardownTrace ii,
   tests.map (beforeEachHook context))

/-
Concrete capability instances used by witnesses and the counterexample.
-/

/-- A transport that always answers 200 with body `"null"`. -/
def okTransport : Transport := fun _ _ => Except.ok { status := 200, body := "null" }

/-- A transport that always throws got's 404 HTTPError. -/
def failTransport : Transport :=
  fun _ _ => Except.error (JsError.http 404 "Response code 404 (Not Found)")

/-- A parser accepting only the literal body `"null"`. -/
def okParse : ParseFn :=
  fun s => if s = "null" then Except.ok JSValue.null
    else Except.error (JsError.parse ("Unexpected token in JSON: " ++ s))

/-- A sample instance under test providing all three lifecycle hooks. -/
def sampleInstance : IntegrationInstance :=
  { baseURL := "http://localhost:8080", hasStart := true, hasStop := true,
    hasCheckStopped := true }

/-- The context over the sample instance. -/
def sampleContext : TAPContextGot := { integrationInstance := sampleInstance }

/-- A sample multipart handle: three bytes of payload and a boundary
content-type header. -/
def sampleMultipart : MultipartHandle :=
  { buffer := [55, 56, 57]
    getHeaders := fun _ => [("content-type", "multipart/form-data; boundary=abc")] }

/-
General lemmas about the embedded operations.
-/

/-- Header lookup distributes over the merge order: the earlier block
wins. -/
theorem hLookup_append (xs ys : Headers) (k : String) :
    hLookup (xs ++ ys) k = firstSome (hLookup xs k) (hLookup ys k) := by
  induction xs with
  | nil => simp [hLookup, firstSome]
  | cons p rest ih =>
    obtain ⟨a, b⟩ := p
    by_cases hak : a = k <;> simp [hLookup, hak, ih, firstSome]

/-- Body classification never touches the cache option. -/
theorem classifyBody_cache (g : GotOptions) : (classifyBody g).cache = g.cache := by
  unfold classifyBody
  split
  · rfl
  · split <;> rfl

/-- On a body that is not a multipart handle, classification reduces to
the `json !== false` conditional JSON-encoding. -/
theorem classifyBody_not_multipart (g : GotOptions)
    (hb : ∀ d, g.body ≠ some (BodyVal.multipart d)) :
    classifyBody g =
      match g.json with
      | some (JSValue.bool false) => g
      | _ =>
        { g with
          body := stringifyBodyOpt g.body
          headers := some ((g.headers.getD []) ++ [("Content-Type", "application/json")]) } := by
  rcases hB : g.body with _ | bv
  · simp only [classifyBody, hB]
  · cases bv with
    | multipart d => exact absurd hB (hb d)
    | plain v => simp only [classifyBody, hB]
    | fn f => simp only [classifyBody, hB]
    | bytes buf => simp only [classifyBody, hB]

/-- C1: for every body-bearing call (post/put via `_withBody`) whose
resolved body is a multipart-payload handle, the final request body is
the handle's byte buffer, the final headers are the multipart
capability's headers (obtained with the chunked-transfer header
excluded, `getHeaders false`) merged under the caller's explicit headers
with the caller winning on conflict, and the JSON-encoding branch is
never applied: the final body and headers do not depend on the `json`
option at all. -/
theorem multipart_over_json (method : String) (o : ReqOptions) (d : MultipartHandle)
    (hb : resolveBody o.body = some (BodyVal.multipart d)) :
    (withBodyOptions method o).body = some (BodyVal.bytes d.buffer) ∧
    (withBodyOptions method o).headers =
      some ((o.headers.getD []) ++ d.getHeaders false) ∧
    (∀ k, hLookup (((withBodyOptions method o).headers).getD []) k =
      firstSome (hLookup (o.headers.getD []) k) (hLookup (d.getHeaders false) k)) ∧
    (∀ jv, (withBodyOptions method { o with json := jv }).body =
        (withBodyOptions method o).body ∧
      (withBodyOptions method { o with json := jv }).headers =
        (withBodyOptions method o).headers) := by
  refine ⟨?_, ?_, ?_, ?_⟩ <;>
    simp [withBodyOptions, mergedOptions, hb, classifyBody, hLookup_append]

/-- Options carrying a multipart body, for the C1 witness. -/
def multipartOptions : ReqOptions :=
  { emptyOptions with body := some (BodyVal.multipart sampleMultipart) }

/-- C1 witness: on a concrete multipart body the final request body is
the handle's byte buffer. -/
theorem multipart_over_json_witness :
    (withBodyOptions "POST" multipartOptions).body =
      some (BodyVal.bytes sampleMultipart.buffer) :=
  (multipart_over_json "POST" multipartOptions sampleMultipart rfl).1

/-- C2: when the supplied `body` option is a zero-argument function, the
resolution step invokes it exactly once, the invocation happens before
classification (the classification step receives the already-resolved
value), and the classified-and-sent body is the function's return value,
not the function itself. -/
theorem deferred_body_resolved (method : String) (o : ReqOptions) (f : Unit → BodyVal)
    (hb : o.body = some (BodyVal.fn f)) :
    resolveBody o.body = some (f ()) ∧
    withBodyOptions method o =
      classifyBody { mergedOptions method o with body := some (f ()) } ∧
    resolveCalls o.body = 1 := by
  refine ⟨?_, ?_, ?_⟩ <;>
    simp [resolveBody, withBodyOptions, resolveCalls, hb, mergedOptions]

/-- Options carrying a deferred body producing the number 7, for the C2
witness. -/
def deferredOptions : ReqOptions :=
  { emptyOptions with
    body := some (BodyVal.fn (fun _ => BodyVal.plain (JSValue.num 7))) }

/-- C2 witness: a concrete deferred body resolves to its return value
before classification. -/
theorem deferred_body_resolved_witness :
    resolveBody deferredOptions.body = some (BodyVal.plain (JSValue.num 7)) :=
  (deferred_body_resolved "POST" deferredOptions
    (fun _ => BodyVal.plain (JSValue.num 7)) rfl).1

/-- C3: when the caller's options carry an explicitly falsy `cache`
field, the final transport options of the body-bearing path contain no
cache at all, even though the shared default options object does carry
one. -/
theorem falsy_cache_removed (method : String) (o : ReqOptions) (v : JSValue)
    (hc : o.cache = some v) (hv : v.truthy = false) :
    (withBodyOptions method o).cache = none ∧
    genericGotOptions.cache = some CacheRef.sharedDefault := by
  constructor
  · simp [withBodyOptions, classifyBody_cache, mergedOptions, jsTruthyOpt, hc, hv]
  · rfl

/-- C3 witness: `cache: false` on a concrete call leaves no cache key in
the outgoing options. -/
theorem falsy_cache_removed_witness :
    (withBodyOptions "POST"
      { emptyOptions with cache := some (JSValue.bool false) }).cache = none :=
  (falsy_cache_removed "POST" { emptyOptions with cache := some (JSValue.bool false) }
    (JSValue.bool false) rfl rfl).1

/-- C10: the body-bearing pipeline drops the cache exactly when the
caller's `cache` field is falsy — including when it is omitted entirely —
so a body-bearing request never carries the shared default cache; the
GET-path merge (`api`, used by `json`) and the delete merge keep the
shared default cache whenever the caller does not override it. -/
theorem body_cache_never_default (method : String) (o : ReqOptions) :
    ((withBodyOptions method o).cache = none ↔ jsTruthyOpt o.cache = false) ∧
    (withBodyOptions method o).cache ≠ some CacheRef.sharedDefault ∧
    (o.cache = none → (apiOptions o).cache = some CacheRef.sharedDefault) ∧
    (o.cache = none →
      (apiOptions { o with method := some "DELETE" }).cache =
        some CacheRef.sharedDefault) := by
  have hcache : (withBodyOptions method o).cache = (mergedOptions method o).cache := by
    simp [withBodyOptions, classifyBody_cache]
  refine ⟨?_, ?_, ?_, ?_⟩
  · rw [hcache]
    rcases hc : o.cache with _ | v
    · simp [mergedOptions, jsTruthyOpt, hc]
    · by_cases hv : v.truthy <;> simp [mergedOptions, jsTruthyOpt, hc, hv]
  · rw [hcache]
    rcases hc : o.cache with _ | v
    · simp [mergedOptions, jsTruthyOpt, hc]
    · by_cases hv : v.truthy <;> simp [mergedOptions, jsTruthyOpt, hc, hv]
  · intro hc
    simp [apiOptions, hc, genericGotOptions]
  · intro hc
    simp [apiOptions, hc, genericGotOptions]

/-- C10 witness: with `cache` omitted, a POST carries no cache while the
GET-path options keep the shared default. -/
theorem body_cache_never_default_witness :
    ((withBodyOptions "POST" emptyOptions).cache = none ↔
      jsTruthyOpt emptyOptions.cache = false) ∧
    (apiOptions emptyOptions).cache = some CacheRef.sharedDefault :=
  ⟨(body_cache_never_default "POST" emptyOptions).1,
   (body_cache_never_default "POST" emptyOptions).2.2.1 rfl⟩

/-- C6: on a resolved body that is not a multipart handle, `json` not
strictly `false` JSON-encodes the body (the `JSON.stringify` assignment)
and merges `Content-Type: application/json` under the caller's explicit
headers (caller wins on conflict); `json` strictly `false` sends the
resolved body verbatim and adds no header. -/
theorem json_flag_encoding (method : String) (o : ReqOptions)
    (hnm : ∀ d, resolveBody o.body ≠ some (BodyVal.multipart d)) :
    (o.json ≠ some (JSValue.bool false) →
      (withBodyOptions method o).body = stringifyBodyOpt (resolveBody o.body) ∧
      (withBodyOptions method o).headers =
        some ((o.headers.getD []) ++ [("Content-Type", "application/json")]) ∧
      (∀ k, hLookup (((withBodyOptions method o).headers).getD []) k =
        firstSome (hLookup (o.headers.getD []) k)
          (hLookup [("Content-Type", "application/json")] k))) ∧
    (o.json = some (JSValue.bool false) →
      (withBodyOptions method o).body = resolveBody o.body ∧
      (withBodyOptions method o).headers = some (o.headers.getD [])) := by
  have hb2 : ∀ d,
      ({ mergedOptions method o with body := resolveBody o.body } : GotOptions).body ≠
        some (BodyVal.multipart d) := by
    intro d
    simpa [mergedOptions] using hnm d
  have hW : withBodyOptions method o =
      match o.json with
      | some (JSValue.bool false) =>
        { mergedOptions method o with body := resolveBody o.body }
      | _ =>
        { mergedOptions method o with
          body := stringifyBodyOpt (resolveBody o.body)
          headers := some ((o.headers.getD []) ++ [("Content-Type", "application/json")]) } := by
    have := classifyBody_not_multipart
      { mergedOptions method o with body := resolveBody o.body } hb2
    simpa [withBodyOptions, mergedOptions] using this
  constructor
  · intro hne
    have hW2 : withBodyOptions method o =
        { mergedOptions method o with
          body := stringifyBodyOpt (resolveBody o.body)
          headers := some ((o.headers.getD []) ++ [("Content-Type", "application/json")]) } := by
      rw [hW]
      rcases hj : o.json with _ | jv
      · rfl
      · cases jv with
        | bool b => cases b with
          | false => exact absurd hj hne
          | true => rfl
        | undefined => rfl
        | null => rfl
        | num n => rfl
        | str s => rfl
        | arr items => rfl
        | obj fields => rfl
    refine ⟨?_, ?_, ?_⟩ <;> simp [hW2, mergedOptions, hLookup_append]
  · intro hje
    rw [hW, hje]
    refine ⟨?_, ?_⟩ <;> simp [mergedOptions]

/-- Options carrying a plain string body, for the C6 witness. -/
def jsonBodyOptions : ReqOptions :=
  { emptyOptions with body := some (BodyVal.plain (JSValue.str "a")) }

/-- C6 witness: a concrete non-multipart body with `json` unset is
JSON-encoded and gets the JSON content type. -/
theorem json_flag_encoding_witness :
    (withBodyOptions "POST" jsonBodyOptions).body =
      stringifyBodyOpt (resolveBody jsonBodyOptions.body) ∧
    (withBodyOptions "POST" jsonBodyOptions).headers =
      some ((jsonBodyOptions.headers.getD []) ++ [("Content-Type", "application/json")]) :=
  ⟨((json_flag_encoding "POST" jsonBodyOptions
      (by intro d; simp [jsonBodyOptions, emptyOptions, resolveBody])).1
      (by simp [jsonBodyOptions, emptyOptions])).1,
   (((json_flag_encoding "POST" jsonBodyOptions
      (by intro d; simp [jsonBodyOptions, emptyOptions, resolveBody])).1
      (by simp [jsonBodyOptions, emptyOptions])).2).1⟩

/-- C7: `delete` issues a DELETE for the path with the merged
default+override options and returns the JSON-parsed response body; none
of the body-bearing steps run — the body option (even a deferred
producer or multipart handle) is forwarded untouched, never resolved,
classified, or encoded. -/
theorem delete_no_body_pipeline (t : Transport) (parseJSON : ParseFn)
    (c : TAPContextGot) (api : String) (o : ReqOptions) :
    TAPContextGot.delete t parseJSON c api o =
      (t (c.baseURL ++ api) (apiOptions { o with method := some "DELETE" })).bind
        (fun r => parseJSON r.body) ∧
    (apiOptions { o with method := some "DELETE" }).method = some "DELETE" ∧
    (apiOptions { o with method := some "DELETE" }).body = o.body ∧
    (apiOptions { o with method := some "DELETE" }).timeout =
      some (o.timeout.getD 10000) ∧
    (apiOptions { o with method := some "DELETE" }).headers = o.headers := by
  refine ⟨rfl, rfl, rfl, ?_, rfl⟩
  rcases o.timeout with _ | ti <;> rfl

/-- A `neverRecovers res parseJSON out` result is a pure translation of
the transport outcome: a transport error passes through unchanged, and a
2xx outcome is exactly the parse of its body (so a parse error passes
through unchanged as well, never as an empty result). -/
def neverRecovers (res : Except JsError Response) (parseJSON : ParseFn)
    (out : Except JsError JSValue) : Prop :=
  (∀ e, res = Except.error e → out = Except.error e) ∧
  (∀ r, res = Except.ok r → out = parseJSON r.body)

/-- C8: every operation of the normalization layer (`json`, `post`,
`put`, `delete`) propagates transport errors and JSON parse outcomes
unchanged — none of them catches, transforms, or recovers. -/
theorem operations_never_recover (t : Transport) (parseJSON : ParseFn)
    (c : TAPContextGot) (api : String) (o : ReqOptions) :
    neverRecovers (t (c.baseURL ++ api) (apiOptions o)) parseJSON
      (TAPContextGot.json t parseJSON c api o) ∧
    neverRecovers (t (c.baseURL ++ api) (withBodyOptions "POST" o)) parseJSON
      (TAPContextGot.post t parseJSON c api o) ∧
    neverRecovers (t (c.baseURL ++ api) (withBodyOptions "PUT" o)) parseJSON
      (TAPContextGot.put t parseJSON c api o) ∧
    neverRecovers (t (c.baseURL ++ api) (apiOptions { o with method := some "DELETE" }))
      parseJSON (TAPContextGot.delete t parseJSON c api o) := by
  refine ⟨⟨?_, ?_⟩, ⟨?_, ?_⟩, ⟨?_, ?_⟩, ⟨?_, ?_⟩⟩ <;> intro x hx <;>
    simp [TAPContextGot.json, TAPContextGot.post, TAPContextGot.put,
      TAPContextGot.delete, TAPContextGot.withBody, TAPContextGot.api, hx] <;>
    rfl

/-- C8 witness: against a transport that throws got's 404 error, `json`
surfaces exactly that error, and against a 200 transport it returns
exactly the parse of the body. -/
theorem operations_never_recover_witness :
    TAPContextGot.json failTransport okParse sampleContext "/a" emptyOptions =
      Except.error (JsError.http 404 "Response code 404 (Not Found)") ∧
    TAPContextGot.json okTransport okParse sampleContext "/a" emptyOptions =
      okParse "null" :=
  ⟨(operations_never_recover failTransport okParse sampleContext "/a" emptyOptions).1.1
      (JsError.http 404 "Response code 404 (Not Found)") rfl,
   (operations_never_recover okTransport okParse sampleContext "/a" emptyOptions).1.2
      { status := 200, body := "null" } rfl⟩

/-- The rejects primitive passes on a pattern exactly when the awaited
operation rejected with an error whose message matches the pattern. -/
theorem rejectsPasses_iff (outcome : Except JsError JSValue) (pat : String) :
    rejectsPasses outcome (some pat) = true ↔
      ∃ e, outcome = Except.error e ∧ reMatches pat e.message = true := by
  cases outcome with
  | ok v => simp [rejectsPasses]
  | error e => simp [rejectsPasses]

/-- C5: each failure assertion invokes its corresponding operation and
hands the framework a rejects-check against the pattern registered for
the given classification key, so it passes exactly when that operation
rejects with an error whose message matches that pattern — a success or
a non-matching rejection fails. -/
theorem failure_assertions_classify (t : Transport) (parseJSON : ParseFn)
    (c : TAPContextGot) (api : String) (bodyP bodyQ : BodyVal) (key : Nat)
    (pat : String) (message : Option String) (extra : Option JSValue)
    (hk : httpError key = some pat) :
    (TAPContextGot.checkGetError t parseJSON c api key message extra =
      TapCall.rejects (TAPContextGot.json t parseJSON c api emptyOptions) (some pat)
        (jsOrString message ("GET " ++ api)) extra ∧
     (rejectsPasses (TAPContextGot.json t parseJSON c api emptyOptions) (some pat) = true ↔
       ∃ e, TAPContextGot.json t parseJSON c api emptyOptions = Except.error e ∧
         reMatches pat e.message = true)) ∧
    (TAPContextGot.checkPostError t parseJSON c api bodyP key message extra =
      TapCall.rejects
        (TAPContextGot.post t parseJSON c api { emptyOptions with body := some bodyP })
        (some pat) (jsOrString message ("POST " ++ api)) extra ∧
     (rejectsPasses
        (TAPContextGot.post t parseJSON c api { emptyOptions with body := some bodyP })
        (some pat) = true ↔
       ∃ e, TAPContextGot.post t parseJSON c api { emptyOptions with body := some bodyP } =
           Except.error e ∧ reMatches pat e.message = true)) ∧
    (TAPContextGot.checkPutError t parseJSON c api bodyQ key message extra =
      TapCall.rejects
        (TAPContextGot.put t parseJSON c api { emptyOptions with body := some bodyQ })
        (some pat) (jsOrString message ("PUT " ++ api)) extra ∧
     (rejectsPasses
        (TAPContextGot.put t parseJSON c api { emptyOptions with body := some bodyQ })
        (some pat) = true ↔
       ∃ e, TAPContextGot.put t parseJSON c api { emptyOptions with body := some bodyQ } =
           Except.error e ∧ reMatches pat e.message = true)) ∧
    (TAPContextGot.checkDeleteError t parseJSON c api key message extra =
      TapCall.rejects (TAPContextGot.delete t parseJSON c api emptyOptions) (some pat)
        (jsOrString message ("DELETE " ++ api)) extra ∧
     (rejectsPasses (TAPContextGot.delete t parseJSON c api emptyOptions) (some pat) = true ↔
       ∃ e, TAPContextGot.delete t parseJSON c api emptyOptions = Except.error e ∧
         reMatches pat e.message = true)) := by
  refine ⟨⟨?_, rejectsPasses_iff _ pat⟩, ⟨?_, rejectsPasses_iff _ pat⟩,
    ⟨?_, rejectsPasses_iff _ pat⟩, ⟨?_, rejectsPasses_iff _ pat⟩⟩ <;>
    simp [TAPContextGot.checkGetError, TAPContextGot.checkPostError,
      TAPContextGot.checkPutError, TAPContextGot.checkDeleteError, hk]

/-- C5 witness: with the registered 404 classification, a concrete
`checkGetError` against a 404-throwing transport is the rejects-check on
`json`'s outcome with the `Response code 404` pattern. -/
theorem failure_assertions_classify_witness :
    TAPContextGot.checkGetError failTransport okParse sampleContext "/a" 404 none none =
      TapCall.rejects (TAPContextGot.json failTransport okParse sampleContext "/a" emptyOptions)
        (some "Response code 404") (jsOrString none ("GET " ++ "/a")) none :=
  ((failure_assertions_classify failTransport okParse sampleContext "/a"
    (BodyVal.plain JSValue.null) (BodyVal.plain JSValue.null) 404
    "Response code 404" none none rfl).1).1

/-- C4 counterexample: in the src/index.js variant, `checkGet` with the
message omitted reports the bare path `"/widgets/1"`, not
`"GET /widgets/1"`, so not every registered assertion defaults its
message to `"<METHOD> <path>"`. -/
theorem bare_path_default_message :
    (IndexJs.checkGet okTransport okParse sampleContext "/widgets/1"
      JSValue.null none none).message = "/widgets/1" ∧
    "/widgets/1" ≠ "GET " ++ "/widgets/1" := by
  constructor
  · rfl
  · decide

/-- C4 (amended): when the message is omitted, every assertion of the
part_000 variant — and the error assertions of the index.js variant —
reports `"<METHOD> <path>"` by default, while the index.js variant's
`checkGet`, `matchGet` and `checkPost` report the bare path; in all
fifteen registered assertions the extra metadata object is forwarded
verbatim to the framework's reporting call. -/
theorem assertion_message_defaults (t : Transport) (parseJSON : ParseFn)
    (c : TAPContextGot) (api : String) (expected : JSValue) (bodyv : BodyVal)
    (key : Nat) (extra : Option JSValue) (oo : ReqOptions) :
    ((TAPContextGot.checkGet t parseJSON c api expected none extra).message = "GET " ++ api ∧
     (TAPContextGot.checkGet t parseJSON c api expected none extra).extra = extra) ∧
    ((TAPContextGot.matchGet t parseJSON c api expected none extra).message = "GET " ++ api ∧
     (TAPContextGot.matchGet t parseJSON c api expected none extra).extra = extra) ∧
    ((TAPContextGot.checkGetError t parseJSON c api key none extra).message = "GET " ++ api ∧
     (TAPContextGot.checkGetError t parseJSON c api key none extra).extra = extra) ∧
    ((TAPContextGot.checkPost t parseJSON c api bodyv expected none extra).message = "POST " ++ api ∧
     (TAPContextGot.checkPost t parseJSON c api bodyv expected none extra).extra = extra) ∧
    ((TAPContextGot.checkPostError t parseJSON c api bodyv key none extra).message = "POST " ++ api ∧
     (TAPContextGot.checkPostError t parseJSON c api bodyv key none extra).extra = extra) ∧
    ((TAPContextGot.checkPut t parseJSON c api bodyv expected none extra).message = "PUT " ++ api ∧
     (TAPContextGot.checkPut t parseJSON c api bodyv expected none extra).extra = extra) ∧
    ((TAPContextGot.checkPutError t parseJSON c api bodyv key none extra).message = "PUT " ++ api ∧
     (TAPContextGot.checkPutError t parseJSON c api bodyv key none extra).extra = extra) ∧
    ((TAPContextGot.checkDelete t parseJSON c api expected none extra).message = "DELETE " ++ api ∧
     (TAPContextGot.checkDelete t parseJSON c api expected none extra).extra = extra) ∧
    ((TAPContextGot.checkDeleteError t parseJSON c api key none extra).message = "DELETE " ++ api ∧
     (TAPContextGot.checkDeleteError t parseJSON c api key none extra).extra = extra) ∧
    ((TAPContextGot.apiRejects t parseJSON c api none key none extra).message = "GET " ++ api ∧
     (TAPContextGot.apiRejects t parseJSON c api none key none extra).extra = extra) ∧
    ((TAPContextGot.apiRejects t parseJSON c api (some { oo with method := some "PUT" })
        key none extra).message = "PUT " ++ api ∧
     (TAPContextGot.apiRejects t parseJSON c api (some { oo with method := some "PUT" })
        key none extra).extra = extra) ∧
    ((IndexJs.checkGetError t parseJSON c api key none extra).message = "GET " ++ api ∧
     (IndexJs.checkGetError t parseJSON c api key none extra).extra = extra) ∧
    ((IndexJs.checkPostError t parseJSON c api bodyv key none extra).message = "POST " ++ api ∧
     (IndexJs.checkPostError t parseJSON c api bodyv key none extra).extra = extra) ∧
    ((IndexJs.checkGet t parseJSON c api expected none extra).message = api ∧
     (IndexJs.checkGet t parseJSON c api expected none extra).extra = extra) ∧
    ((IndexJs.matchGet t parseJSON c api expected none extra).message = api ∧
     (IndexJs.matchGet t parseJSON c api expected none extra).extra = extra) ∧
    ((IndexJs.checkPost t parseJSON c api bodyv expected none extra).message = api ∧
     (IndexJs.checkPost t parseJSON c api bodyv expected none extra).extra = extra) := by
  refine ⟨?_, ?_, ⟨rfl, rfl⟩, ?_, ⟨rfl, rfl⟩, ?_, ⟨rfl, rfl⟩, ?_, ⟨rfl, rfl⟩,
    ⟨rfl, rfl⟩, ⟨rfl, rfl⟩, ⟨rfl, rfl⟩, ⟨rfl, rfl⟩, ?_, ?_, ?_⟩
  · cases h : TAPContextGot.json t parseJSON c api emptyOptions <;>
      simp [TAPContextGot.checkGet, h, jsOrString, TapCall.message, TapCall.extra]
  · cases h : TAPContextGot.json t parseJSON c api emptyOptions <;>
      simp [TAPContextGot.matchGet, h, jsOrString, TapCall.message, TapCall.extra]
  · cases h : TAPContextGot.post t parseJSON c api { emptyOptions with body := some bodyv } <;>
      simp [TAPContextGot.checkPost, h, jsOrString, TapCall.message, TapCall.extra]
  · cases h : TAPContextGot.put t parseJSON c api { emptyOptions with body := some bodyv } <;>
      simp [TAPContextGot.checkPut, h, jsOrString, TapCall.message, TapCall.extra]
  · cases h : TAPContextGot.delete t parseJSON c api emptyOptions <;>
      simp [TAPContextGot.checkDelete, h, jsOrString, TapCall.message, TapCall.extra]
  · cases h : TAPContextGot.json t parseJSON c api emptyOptions <;>
      simp [IndexJs.checkGet, h, jsOrString, TapCall.message, TapCall.extra]
  · cases h : TAPContextGot.json t parseJSON c api emptyOptions <;>
      simp [IndexJs.matchGet, h, jsOrString, TapCall.message, TapCall.extra]
  · cases h : TAPContextGot.post t parseJSON c api { emptyOptions with body := some bodyv } <;>
      simp [IndexJs.checkPost, h, jsOrString, TapCall.message, TapCall.extra]

/-- Number of context constructions recorded in an event trace. -/
def countCreated : List LifecycleEvent → Nat
  | [] => 0
  | LifecycleEvent.contextCreated :: rest => 1 + countCreated rest
  | _ :: rest => countCreated rest

/-- The construction counter distributes over trace concatenation. -/
theorem countCreated_append (xs ys : List LifecycleEvent) :
    countCreated (xs ++ ys) = countCreated xs + countCreated ys := by
  induction xs with
  | nil => simp [countCreated]
  | cons x rest ih => cases x <;> simp [countCreated, ih, Nat.add_assoc]

/-- Test bodies themselves construct no context. -/
theorem countCreated_replicate (n : Nat) :
    countCreated (List.replicate n LifecycleEvent.testRun) = 0 := by
  induction n with
  | zero => rfl
  | succ n ih => simp [List.replicate, countCreated, ih]

/-- C9: across a whole run the shared context is constructed exactly
once (in the setup step, never per test case), the `beforeEach` hook
attaches that one context to every test case, and the teardown runs the
stop hook strictly before the stop-confirmation hook, each silently
skipped when the instance does not provide it. -/
theorem lifecycle_once_and_ordered (ii : IntegrationInstance) (tests : List TestCase) :
    countCreated (setupRun ii tests).1 = 1 ∧
    (∀ tc, tc ∈ (setupRun ii tests).2 →
      tc.context = some { integrationInstance := ii }) ∧
    (ii.hasStop = true → ii.hasCheckStopped = true →
      teardownTrace ii =
        [LifecycleEvent.stopCalled, LifecycleEvent.checkStoppedCalled]) ∧
    (ii.hasStop = false →
      teardownTrace ii =
        if ii.hasCheckStopped then [LifecycleEvent.checkStoppedCalled] else []) ∧
    (ii.hasCheckStopped = false →
      teardownTrace ii = if ii.hasStop then [LifecycleEvent.stopCalled] else []) := by
  refine ⟨?_, ?_, ?_, ?_, ?_⟩
  · simp only [setupRun, countCreated_append, countCreated_replicate,
      setupTestTrace, teardownTrace]
    cases ii.hasStart <;> cases ii.hasStop <;> cases ii.hasCheckStopped <;>
      simp [countCreated, countCreated_append]
  · intro tc htc
    simp only [setupRun, List.mem_map] at htc
    obtain ⟨a, _, rfl⟩ := htc
    simp [beforeEachHook]
  · intro h1 h2
    simp [teardownTrace, h1, h2]
  · intro h1
    simp [teardownTrace, h1]
  · intro h2
    cases hs : ii.hasStop <;> simp [teardownTrace, h2, hs]

/-- C9 witness: on the sample instance (all hooks present) with one test
case, the context is created once, the hook attaches it, and teardown is
stop followed by the stop confirmation. -/
theorem lifecycle_once_and_ordered_witness :
    countCreated (setupRun sampleInstance [{ context := none }]).1 = 1 ∧
    ({ context := some { integrationInstance := sampleInstance } } : TestCase).context =
      some { integrationInstance := sampleInstance } ∧
    teardownTrace sampleInstance =
      [LifecycleEvent.stopCalled, LifecycleEvent.checkStoppedCalled] :=
  ⟨(lifecycle_once_and_ordered sampleInstance [{ context := none }]).1,
   (lifecycle_once_and_ordered sampleInstance [{ context := none }]).2.1
     { context := some { integrationInstance := sampleInstance } } (by decide),
   (lifecycle_once_and_ordered sampleInstance [{ context := none }]).2.2.1 rfl rfl⟩
